import Mathlib

/-!
Shallow embedding of the tire-temperature prediction core of
rah-iracing-overlay (src/core/*.py).  Python floats are modelled as exact
rationals (ℚ); dictionaries keyed by tire / zone become total functions on
the finite `Tire` / `Zone` types; a missing dictionary key is represented
by the default value the Python `.get` call supplies.
-/

/-- The four tires, as in the literal lists `['LF', 'RF', 'LR', 'RR']`. -/
inductive Tire
  | LF | RF | LR | RR
deriving DecidableEq, Repr

/-- The three zones of a tire, `['L', 'C', 'R']`. -/
inductive Zone
  | L | C | R
deriving DecidableEq, Repr

/-- Per-tire, per-zone temperature table (`current_temps` and friends). -/
def Temps : Type := Tire → Zone → ℚ

/-- One telemetry snapshot, restricted to the keys the physics model reads:
`timestamp`, `inputs.throttle/brake/speed`, `g_forces.lateral`,
`environment.track_temp`, `stint_time`, and the four `loads.〈tire〉_shock`
values.  A key missing in the Python dict is the corresponding `.get`
default, so a field here holds that default instead. -/
structure Telemetry where
  timestamp : ℚ
  throttle : ℚ
  brake : ℚ
  speed : ℚ
  lateralG : ℚ
  trackTemp : ℚ
  stintTime : ℚ
  shock : Tire → ℚ

namespace TirePhysicsModel

/-- Mutable state of `TirePhysicsModel`: `current_temps` and
`last_update_time`. -/
structure State where
  currentTemps : Tire → Zone → ℚ
  lastUpdateTime : ℚ

/-- `__init__`: all 12 zones at 70 °F, timestamp 0. -/
def initialState : State :=
  { currentTemps := fun _ _ => 70, lastUpdateTime := 0 }

/-- `base_temp = ambient_base + (track_temp - 75) * track_temp_influence`
with `ambient_base = 70.0` and `track_temp_influence = 0.4`
(tire_physics_model.py line 92). -/
def baseTemp (tel : Telemetry) : ℚ :=
  70 + (tel.trackTemp - 75) * (4/10)

/-- `_calculate_load_factor` (tire_physics_model.py lines 158-210).
In `predict` this is called with the absolute lateral g, so the
left-turn branch is unreachable from there, but we embed the function as
written. -/
def calculateLoadFactor (tire : Tire) (lateralG throttle brake : ℚ)
    (shockDeflection : ℚ) : ℚ :=
  let baseLoad : ℚ := 1
  let loadFromShock : ℚ := 1 + shockDeflection * (1/2)
  let lateralLoad : ℚ :=
    if 1/10 < lateralG then
      if tire = Tire.RF ∨ tire = Tire.RR then 1 + |lateralG| * (3/10)
      else 1 - |lateralG| * (2/10)
    else if lateralG < -(1/10) then
      if tire = Tire.LF ∨ tire = Tire.LR then 1 + |lateralG| * (3/10)
      else 1 - |lateralG| * (2/10)
    else 1
  let longLoadAfterThrottle : ℚ :=
    if 1/2 < throttle then
      if tire = Tire.LR ∨ tire = Tire.RR then 1 + throttle * (2/10)
      else 1 - throttle * (1/10)
    else 1
  let longLoad : ℚ :=
    if 1/2 < brake then
      if tire = Tire.LF ∨ tire = Tire.RF then
        longLoadAfterThrottle + brake * (3/10)
      else longLoadAfterThrottle - brake * (15/100)
    else longLoadAfterThrottle
  max (1/2) (min (baseLoad * loadFromShock * lateralLoad * longLoad) 2)

/-- `_get_zone_lateral_factor` (tire_physics_model.py lines 212-256). -/
def getZoneLateralFactor (tire : Tire) (zone : Zone) (lateralG : ℚ) : ℚ :=
  let baseFactor : ℚ := |lateralG|
  if 1/10 < lateralG then
    if tire = Tire.RF ∨ tire = Tire.RR then
      if zone = Zone.L then baseFactor * (13/10)
      else if zone = Zone.C then baseFactor * 1
      else baseFactor * (7/10)
    else
      if zone = Zone.R then baseFactor * (12/10)
      else baseFactor * (8/10)
  else if lateralG < -(1/10) then
    if tire = Tire.LF ∨ tire = Tire.LR then
      if zone = Zone.R then baseFactor * (13/10)
      else if zone = Zone.C then baseFactor * 1
      else baseFactor * (7/10)
    else
      if zone = Zone.L then baseFactor * (12/10)
      else baseFactor * (8/10)
  else
    if zone = Zone.C then baseFactor else baseFactor * (8/10)

/-- `predict` (tire_physics_model.py lines 57-156).  First call only seeds
`last_update_time`; later calls integrate heat and cooling over `dt`
(defaulted to 1 when outside (0, 2]), clamp the new value to
[`base_temp`, 300] and smooth with an EMA (α = 0.3).  Coefficients:
throttle 3.5, brake 5.0, lateral 2.5, speed 0.02, cooling 0.8,
speed cooling 0.015, stint 0.05 °F/min.  All arithmetic is exact here, so
the `except` fallback path of the Python code is vacuous.  The per-zone
body of the update loop is factored out here (the quantities shared
across zones — `dt`, load factor, stint heat — are pure, so recomputing
them per zone is equivalent to the Python loop); `predict` below wires in
the first-call seeding. -/
def predictZoneTemp (st : State) (tel : Telemetry) (tire : Tire)
    (zone : Zone) : ℚ :=
  let dt0 := tel.timestamp - st.lastUpdateTime
  let dt := if dt0 ≤ 0 ∨ 2 < dt0 then 1 else dt0
  let latG := |tel.lateralG|
  let stintHeat := tel.stintTime / 60 * (5/100)
  let currentTemp := st.currentTemps tire zone
  let lf := calculateLoadFactor tire latG tel.throttle tel.brake
    (tel.shock tire)
  let heatSources : ℚ :=
    (if tire = Tire.LR ∨ tire = Tire.RR then
      tel.throttle * (35/10) * dt else 0)
    + (if tire = Tire.LF ∨ tire = Tire.RF then
      tel.brake * 5 * dt else 0)
    + getZoneLateralFactor tire zone latG * (25/10) * dt
    + tel.speed / 100 * (2/100) * dt
  let heat := heatSources * lf + stintHeat * dt / 60
  let cooling := (8/10) * dt + tel.speed / 100 * (15/1000) * dt
  let newTemp := currentTemp + (heat - cooling)
  let clamped := max (baseTemp tel) (min newTemp 300)
  (3/10) * clamped + (1 - 3/10) * currentTemp

def predict (st : State) (tel : Telemetry) : State :=
  if st.lastUpdateTime = 0 then
    { st with lastUpdateTime := tel.timestamp }
  else
    { currentTemps := fun tire zone => predictZoneTemp st tel tire zone,
      lastUpdateTime := tel.timestamp }

/-- `reset(base_temp=70)` (tire_physics_model.py lines 258-270): every zone
set to the given base, timestamp cleared. -/
def reset (baseTemp : ℚ) : State :=
  { currentTemps := fun _ _ => baseTemp, lastUpdateTime := 0 }

/-- `calibrate(actual_temps)` (tire_physics_model.py lines 272-287).
`actual t z = none` models a tire or zone key missing from the nested
dict; a provided value overwrites the state only when truthy and > 0. -/
def calibrate (st : State) (actual : Tire → Zone → Option ℚ) : State :=
  { st with currentTemps := fun tire zone =>
      match actual tire zone with
      | some v => if 0 < v then v else st.currentTemps tire zone
      | none => st.currentTemps tire zone }

end TirePhysicsModel

namespace TirePredictor

/-- Python `round(x, 1)`: round to the nearest tenth, ties to even. -/
def roundTenth (q : ℚ) : ℚ :=
  let f : ℤ := ⌊q * 10⌋
  let r : ℚ := q * 10 - f
  let n : ℤ :=
    if r < 1/2 then f
    else if 1/2 < r then f + 1
    else if f % 2 = 0 then f else f + 1
  (n : ℚ) / 10

/-- The per-zone body of `_blend_predictions`
(tire_predictor.py lines 229-258): weights 0.3 / 0.2·pattern_conf /
0.3·ml_conf, normalized; physics-only fallback when the total weight is 0;
clamp to [60, 300]; round to 0.1. -/
def blendZone (physicsTemp patternAdjustment mlTemp : ℚ)
    (patternConf mlConf : ℚ) : ℚ :=
  let physicsWeight : ℚ := 3/10
  let patternWeight : ℚ := 2/10 * patternConf
  let mlWeight : ℚ := 3/10 * mlConf
  let totalWeight := physicsWeight + patternWeight + mlWeight
  let blendedTemp :=
    if 0 < totalWeight then
      (physicsTemp * physicsWeight
        + (physicsTemp + patternAdjustment) * patternWeight
        + mlTemp * mlWeight) / totalWeight
    else physicsTemp
  roundTenth (max 60 (min blendedTemp 300))

/-- `_blend_predictions` over all 12 (tire, zone) pairs
(tire_predictor.py lines 208-260). -/
def blendPredictions (physics patternAdj mlPred : Temps)
    (patternConf mlConf : ℚ) : Temps :=
  fun tire zone =>
    blendZone (physics tire zone) (patternAdj tire zone)
      (mlPred tire zone) patternConf mlConf

end TirePredictor

namespace TirePatternLearner

/-- One telemetry sample as read by `_detect_corner_heating`:
`g_forces.lateral`, `inputs.speed`, `lap_pct` (defaults 0 when the key is
missing). -/
structure TSample where
  lateralG : ℚ
  speed : ℚ
  lapPct : ℚ

/-- A detected corner record as built in `_detect_corner_heating`
(tire_pattern_learner.py lines 224-229): start lap fraction, average
absolute lateral g, average speed, sample count. -/
structure DetectedCorner where
  lapPct : ℚ
  avgLateralG : ℚ
  avgSpeed : ℚ
  duration : ℕ
deriving DecidableEq, Repr

/-- A stored corner pattern after merging (`corner_patterns` entries):
the detected fields plus the observation `count` maintained by
`_merge_corner_patterns`.  (Python also keeps the `duration` payload on
appended entries but never reads it again; we drop it.) -/
structure Corner where
  lapPct : ℚ
  avgLateralG : ℚ
  avgSpeed : ℚ
  count : ℕ
deriving DecidableEq, Repr

/-- Loop state of `_detect_corner_heating`: `in_corner`, `corner_start`,
`corner_data`, and the accumulated `corner_zones` (Python initializes
`corner_start` to `None`; it is only read after being set, so 0 here). -/
structure DetectState where
  inCorner : Bool
  cornerStart : ℚ
  cornerData : List TSample
  acc : List DetectedCorner

/-- Record built on corner exit (tire_pattern_learner.py lines 218-229). -/
def mkCornerRecord (start : ℚ) (data : List TSample) : DetectedCorner :=
  { lapPct := start
    avgLateralG := (data.map (fun s => |s.lateralG|)).sum / data.length
    avgSpeed := (data.map (fun s => s.speed)).sum / data.length
    duration := data.length }

/-- One iteration of the scan in `_detect_corner_heating`
(tire_pattern_learner.py lines 203-229): |lateral g| > 1.0 enters or
extends a corner; otherwise an open corner is closed and recorded when it
spans more than 5 samples. -/
def detectStep (st : DetectState) (s : TSample) : DetectState :=
  if 1 < |s.lateralG| then
    if st.inCorner then
      { st with cornerData := st.cornerData ++ [s] }
    else
      { st with inCorner := true, cornerStart := s.lapPct, cornerData := [s] }
  else if st.inCorner then
    let newAcc :=
      if 5 < st.cornerData.length then
        st.acc ++ [mkCornerRecord st.cornerStart st.cornerData]
      else st.acc
    { st with inCorner := false, acc := newAcc }
  else st

/-- `_detect_corner_heating` (tire_pattern_learner.py lines 187-231):
returns `[]` for fewer than 100 samples, otherwise the corners recorded by
the scan; a corner still open at the last sample is never recorded. -/
def detectCornerHeating (telemetry : List TSample) : List DetectedCorner :=
  if telemetry.length < 100 then []
  else (telemetry.foldl detectStep
    { inCorner := false, cornerStart := 0, cornerData := [], acc := [] }).acc

/-- Inner loop of `_merge_corner_patterns` for one new corner
(tire_pattern_learner.py lines 315-334): the first stored corner within
0.05 lap fraction absorbs it via a count-weighted running average;
otherwise it is appended with `count = 1`. -/
def mergeOneCorner : List Corner → DetectedCorner → List Corner
  | [], c =>
    [{ lapPct := c.lapPct, avgLateralG := c.avgLateralG,
       avgSpeed := c.avgSpeed, count := 1 }]
  | e :: rest, c =>
    if |e.lapPct - c.lapPct| < 5/100 then
      { e with
        avgLateralG := (e.avgLateralG * e.count + c.avgLateralG) / (e.count + 1)
        avgSpeed := (e.avgSpeed * e.count + c.avgSpeed) / (e.count + 1)
        count := e.count + 1 } :: rest
    else e :: mergeOneCorner rest c

/-- `_merge_corner_patterns` (tire_pattern_learner.py lines 311-336):
fold every new corner into the existing list (new appends participate in
later merges, as the Python list is mutated in place). -/
def mergeCornerPatterns (existing : List Corner)
    (newCorners : List DetectedCorner) : List Corner :=
  newCorners.foldl mergeOneCorner existing

/-- The slice of a `track_patterns[combo]` entry that
`_get_track_adjustment` reads. -/
structure TrackPattern where
  cornerPatterns : List Corner
  confidence : ℚ

/-- Adjustment table produced by the pattern learner (per tire, per zone). -/
def Adjust : Type := Tire → Zone → ℚ

/-- The all-zeros adjustment dict. -/
def zeroAdjust : Adjust := fun _ _ => 0

/-- `_get_track_adjustment` (tire_pattern_learner.py lines 413-447).
`none` models `combo not in self.track_patterns`.  The loop applies the
first corner within 0.02 lap fraction and breaks; when that corner's
average lateral g exceeds 0.5 it adds `avg_lateral_g * 2.0` to the LF
left zone and the RF right zone (no cap is applied in the code). -/
def getTrackAdjustment (pattern : Option TrackPattern) (lapPct : ℚ) :
    Adjust × ℚ :=
  match pattern with
  | none => (zeroAdjust, 0)
  | some p =>
    let adj : Adjust :=
      match p.cornerPatterns.find? (fun c => |c.lapPct - lapPct| < 2/100) with
      | some corner =>
        if 1/2 < corner.avgLateralG then
          fun tire zone =>
            if (tire = Tire.LF ∧ zone = Zone.L)
              ∨ (tire = Tire.RF ∧ zone = Zone.R) then
              corner.avgLateralG * 2
            else 0
        else zeroAdjust
      | none => zeroAdjust
    (adj, p.confidence)

end TirePatternLearner

namespace TireModelTrainer

/-- The temperatures of one pit entry (`pit_entry['temps']`), the training
targets; a missing tire or zone key is the `.get` default 0. -/
def PitTemps : Type := Tire → Zone → ℚ

/-- `min_samples_for_training = 50` (tire_model_trainer.py line 54). -/
def minSamplesForTraining : ℕ := 50

/-- `_extract_zone_targets` (tire_model_trainer.py lines 293-309): keep a
pit entry's temperature for the given tire and zone when it is positive;
non-positive entries become NaN and are filtered out, so the net result is
the in-order list of positive targets. -/
def extractZoneTargets (targets : List PitTemps) (tire : Tire) (zone : Zone) :
    List ℚ :=
  targets.filterMap (fun t =>
    if 0 < t tire zone then some (t tire zone) else none)

/-- The per-zone gate of `train_models` (tire_model_trainer.py lines
99-105): `true` when `_train_single_model` is invoked for this (tire,
zone), `false` when the zone is skipped by the `continue` because fewer
than 50 valid targets exist. -/
def zoneTrainingAttempted (targets : List PitTemps) (tire : Tire)
    (zone : Zone) : Bool :=
  if (extractZoneTargets targets tire zone).length < minSamplesForTraining
  then false else true

/-- The control flow of `train_models` (tire_model_trainer.py lines
59-130): `none` for the `insufficient_data` early return when the total
sample count is below 50, otherwise the per-zone attempt table.  Features
and targets are appended pairwise in `_extract_features_targets`, so the
number of feature rows equals `targets.length`. -/
def trainModels (targets : List PitTemps) :
    Option (Tire → Zone → Bool) :=
  if targets.length < minSamplesForTraining then none
  else some (zoneTrainingAttempted targets)

end TireModelTrainer

namespace StorageManager

/-- `min_sessions_per_combo = 3` (storage_manager.py line 43). -/
def minSessionsPerCombo : ℕ := 3

/-- `session_retention_days = 30` (storage_manager.py line 44). -/
def sessionRetentionDays : ℚ := 30

/-- A persisted session file of one car@track combo, reduced to the
attribute `_cleanup_sessions` reads: its modification time (seconds). -/
structure SessionFile where
  mtime : ℚ
deriving DecidableEq, Repr

/-- Age in days, `(now - st_mtime) / 86400` (storage_manager.py line 171). -/
def ageDays (now : ℚ) (f : SessionFile) : ℚ :=
  (now - f.mtime) / 86400

/-- Stable insert for a newest-first sort by `st_mtime`
(`session_files.sort(key=mtime, reverse=True)`, storage_manager.py
line 163). -/
def insertByMtimeDesc (x : SessionFile) : List SessionFile → List SessionFile
  | [] => [x]
  | y :: ys =>
    if y.mtime < x.mtime then x :: y :: ys else y :: insertByMtimeDesc x ys

/-- Newest-first stable sort of a combo's session files. -/
def sortByMtimeDesc : List SessionFile → List SessionFile
  | [] => []
  | x :: xs => insertByMtimeDesc x (sortByMtimeDesc xs)

/-- The per-combo body of `_cleanup_sessions` (storage_manager.py lines
161-181), as the list of raw session files that remain on disk: the
`min_sessions_per_combo` most recent files are kept untouched, and of the
rest only those no older than `session_retention_days` survive (older
ones are synthesized and deleted). -/
def cleanupSessionsCombo (now : ℚ) (files : List SessionFile) :
    List SessionFile :=
  let sorted := sortByMtimeDesc files
  sorted.take minSessionsPerCombo
    ++ (sorted.drop minSessionsPerCombo).filter
      (fun f => ¬ sessionRetentionDays < ageDays now f)

/-- `check_and_cleanup` (storage_manager.py lines 103-146) restricted to
one combo's raw session files: without `force` and without
`needs_cleanup` nothing is touched; otherwise `_cleanup_sessions` runs. -/
def checkAndCleanup (force needsCleanup : Bool) (now : ℚ)
    (files : List SessionFile) : List SessionFile :=
  if ¬ force ∧ ¬ needsCleanup then files
  else cleanupSessionsCombo now files

/-- A synthesized training sample (`_extract_synthetic_samples`,
storage_manager.py lines 319-329).  Only `stint_time` is read again (as
the subsampling sort key); the rest is payload. -/
structure SynthSample where
  lap : ℕ
  stintTime : ℚ
  trackTemp : ℚ
  avgThrottle : ℚ
  avgBrake : ℚ
  avgSpeed : ℚ
  avgLateralG : ℚ
deriving DecidableEq, Repr

instance : Inhabited SynthSample :=
  ⟨{ lap := 0, stintTime := 0, trackTemp := 0, avgThrottle := 0,
     avgBrake := 0, avgSpeed := 0, avgLateralG := 0 }⟩

/-- Stable insert for an ascending sort by `stint_time`
(`sorted(samples, key=stint_time)`, storage_manager.py line 382). -/
def insertByStintTime (x : SynthSample) : List SynthSample → List SynthSample
  | [] => [x]
  | y :: ys =>
    if x.stintTime < y.stintTime then x :: y :: ys
    else y :: insertByStintTime x ys

/-- Ascending stable sort by `stint_time`. -/
def sortByStintTime : List SynthSample → List SynthSample
  | [] => []
  | x :: xs => insertByStintTime x (sortByStintTime xs)

/-- `_select_representative_samples` (storage_manager.py lines 367-388):
at most `max_count` samples pass through unchanged; above that, sort by
stint time and pick `max_count` evenly spaced entries, index
`int(i * step)` with `step = len / max_count` (the float truncation is
modelled by the exact floor `i * len / max_count`). -/
def selectRepresentativeSamples (samples : List SynthSample)
    (maxCount : ℕ) : List SynthSample :=
  if samples.length ≤ maxCount then samples
  else
    let sorted := sortByStintTime samples
    (List.range maxCount).map
      (fun i => sorted.getD (i * sorted.length / maxCount) default)

/-- The synthesized-store update of `_synthesize_session`
(storage_manager.py lines 252-260): extend the combo's
`synthetic_samples` with the new session's samples, then cap at 100 via
`_select_representative_samples`. -/
def synthesizeSession (store newSamples : List SynthSample) :
    List SynthSample :=
  let extended := store ++ newSamples
  if 100 < extended.length then selectRepresentativeSamples extended 100
  else extended

end StorageManager

namespace TirePredictor

/-- A Python exception escaping a method of the coordinator. -/
inductive PyError
  | nameError (name : String)
deriving DecidableEq, Repr

/-- Observable actions `end_session` can perform after the data collector
returns. -/
inductive Effect
  | learnFromSession (path : String)
  | queueTraining (car : String)
  | storageStatsCheck
  | storageCleanup
deriving DecidableEq, Repr

/-- The state of `TirePredictor` that `end_session` consults.
`dataCollectorFile` is the value `self.data_collector.end_session()`
returns (a saved path, or `none` when no collector session was active);
`currentCar = none` models a falsy `self.current_car`. -/
structure State where
  currentCar : Option String
  currentTrack : Option String
  dataCollectorFile : Option String
  storageNeedsCleanup : Bool

/-- `end_session` (tire_predictor.py lines 93-119).  With no current car
it returns at once.  Otherwise the data collector is ended; when it hands
back a saved session path the very next expression is
`Path(session_file)` — but tire_predictor.py never imports `Path`
(its imports are time, logging, threading, typing, collections and the
five core modules), so the call raises `NameError` before
`learn_from_session`, `_queue_training`, the storage check or the state
reset can run, and no `try` in `end_session` catches it.  When no file
was saved, the storage stats check (and conditional cleanup) run and the
car/track/model state is cleared. -/
def endSession (st : State) : Except PyError (List Effect × State) :=
  match st.currentCar with
  | none => Except.ok ([], st)
  | some _car =>
    match st.dataCollectorFile with
    | some _path => Except.error (PyError.nameError "Path")
    | none =>
      let effects :=
        [Effect.storageStatsCheck]
          ++ (if st.storageNeedsCleanup then [Effect.storageCleanup] else [])
      Except.ok (effects,
        { st with currentCar := none, currentTrack := none })

end TirePredictor

/-- A telemetry tick with every driver input, g-force and load at its
zero default, a very cold track (`track_temp` 0 °F) and the given
timestamp. -/
def telemetryCold (ts : ℚ) : Telemetry :=
  { timestamp := ts, throttle := 0, brake := 0, speed := 0, lateralG := 0,
    trackTemp := 0, stintTime := 0, shock := fun _ => 0 }

/-- A telemetry tick with zero inputs and the default 75 °F track. -/
def telemetryMild (ts : ℚ) : Telemetry :=
  { timestamp := ts, throttle := 0, brake := 0, speed := 0, lateralG := 0,
    trackTemp := 75, stintTime := 0, shock := fun _ => 0 }

/-- A predictor state in an active session whose data collector holds a
session that will be persisted on `end_session`. -/
def exampleEndState : TirePredictor.State :=
  { currentCar := some "gt3"
    currentTrack := some "spa"
    dataCollectorFile := some "data/sessions/gt3_spa_20240101_120000.json.gz"
    storageNeedsCleanup := false }

namespace TireModelTrainer

/-- 50 pit entries of which 49 carry a positive (valid) temperature for
every zone and one carries the missing-data default 0 everywhere. -/
def targets49 : List PitTemps :=
  List.replicate 49 (fun _ _ => (200 : ℚ)) ++ [fun _ _ => 0]

/-- 50 pit entries, all with positive (valid) zone temperatures. -/
def targets50 : List PitTemps :=
  List.replicate 50 (fun _ _ => (200 : ℚ))

end TireModelTrainer


/-- C2 counterexample: with both confidences 0 the blend does NOT always
return the physics temperature exactly — a physics value of 50 °F (which
`calibrate` can install, since 50 > 0, so it is a reachable physics-layer
temperature) is clamped up to the 60 °F floor by `_blend_predictions`. -/
theorem blend_zero_conf_not_physics_counterexample :
    TirePredictor.blendPredictions (fun _ _ => 50) (fun _ _ => 0)
      (fun _ _ => 0) 0 0 Tire.LF Zone.L = 60
    ∧ ((60 : ℚ) ≠ 50)
    ∧ (TirePhysicsModel.calibrate TirePhysicsModel.initialState
        (fun t z => if t = Tire.LF ∧ z = Zone.L then some 50 else none)
        ).currentTemps Tire.LF Zone.L = 50 := by
  refine ⟨?_, by norm_num, ?_⟩
  · show TirePredictor.blendZone 50 0 0 0 0 = 60
    unfold TirePredictor.blendZone TirePredictor.roundTenth
    norm_num [min_def, max_def]
  · simp [TirePhysicsModel.calibrate, TirePhysicsModel.initialState]

/-- C2 (amended): when both the pattern and the ML confidence are 0, every
blended zone equals the physics-layer temperature clamped to [60, 300]
and rounded to the nearest 0.1 °F — the claimed exact equality holds only
when the physics value already lies in that range on the 0.1 grid. -/
theorem blend_zero_conf_is_clamped_physics
    (physics patternAdj mlPred : Temps) (t : Tire) (z : Zone) :
    TirePredictor.blendPredictions physics patternAdj mlPred 0 0 t z
      = TirePredictor.roundTenth (max 60 (min (physics t z) 300)) := by
  show TirePredictor.blendZone (physics t z) (patternAdj t z) (mlPred t z) 0 0
    = TirePredictor.roundTenth (max 60 (min (physics t z) 300))
  unfold TirePredictor.blendZone
  norm_num

/-- C3 counterexample: the [baseline, 300] invariant fails on both sides.
`calibrate` installs any provided positive value, e.g. 500 °F > 300; and
two `predict` ticks on a 0 °F track (base_temp = 40 °F < 70 °F baseline)
drive the LF left zone to 69.76 °F, below the 70 °F ambient baseline. -/
theorem physics_range_invariant_counterexample :
    (TirePhysicsModel.calibrate TirePhysicsModel.initialState
      (fun t z => if t = Tire.LF ∧ z = Zone.L then some 500 else none)
      ).currentTemps Tire.LF Zone.L = 500
    ∧ ¬ ((500 : ℚ) ≤ 300)
    ∧ (TirePhysicsModel.predict (TirePhysicsModel.predict
        TirePhysicsModel.initialState (telemetryCold 1))
        (telemetryCold 2)).currentTemps Tire.LF Zone.L = 1744/25
    ∧ (1744/25 : ℚ) < 70 := by
  refine ⟨?_, by norm_num, ?_, by norm_num⟩
  · simp [TirePhysicsModel.calibrate, TirePhysicsModel.initialState]
  · norm_num [TirePhysicsModel.predict, TirePhysicsModel.predictZoneTemp,
      TirePhysicsModel.initialState, telemetryCold, TirePhysicsModel.baseTemp,
      TirePhysicsModel.calculateLoadFactor,
      TirePhysicsModel.getZoneLateralFactor, min_def, max_def]

/-- Arithmetic core of the physics update: the EMA of a clamped target
against the previous value stays at most 300 and at least
`min previous base`. -/
theorem ema_clamp_bounds (base cur x : ℚ) (hb : base ≤ 300) (hc : cur ≤ 300) :
    (3/10) * max base (min x 300) + (1 - 3/10) * cur ≤ 300
      ∧ min cur base ≤ (3/10) * max base (min x 300) + (1 - 3/10) * cur := by
  constructor
  · have h1 : max base (min x 300) ≤ 300 := max_le hb (min_le_right _ _)
    linarith
  · have h2 : base ≤ max base (min x 300) := le_max_left _ _
    have h3 : min cur base ≤ base := min_le_right _ _
    have h4 : min cur base ≤ cur := min_le_left _ _
    linarith

/-- The per-zone physics update obeys the bounds of `ema_clamp_bounds`. -/
theorem predictZoneTemp_bounds (st : TirePhysicsModel.State) (tel : Telemetry)
    (t : Tire) (z : Zone)
    (hbase : TirePhysicsModel.baseTemp tel ≤ 300)
    (hcur : st.currentTemps t z ≤ 300) :
    TirePhysicsModel.predictZoneTemp st tel t z ≤ 300
    ∧ min (st.currentTemps t z) (TirePhysicsModel.baseTemp tel)
        ≤ TirePhysicsModel.predictZoneTemp st tel t z := by
  unfold TirePhysicsModel.predictZoneTemp
  exact ema_clamp_bounds _ _ _ hbase hcur

/-- C3 (amended): after any `predict` tick whose environment-derived base
temperature is at most 300 °F, every zone that was at most 300 °F stays
at most 300 °F and does not fall below the smaller of its previous value
and that tick's base temperature, and `reset(b)` sets every zone to `b`
exactly; but no fixed lower baseline is maintained by `predict`, and
`calibrate` escapes the range entirely (see the counterexample). -/
theorem physics_predict_bounds (st : TirePhysicsModel.State) (tel : Telemetry)
    (t : Tire) (z : Zone) (b : ℚ)
    (hbase : TirePhysicsModel.baseTemp tel ≤ 300)
    (hcur : st.currentTemps t z ≤ 300) :
    (TirePhysicsModel.predict st tel).currentTemps t z ≤ 300
    ∧ min (st.currentTemps t z) (TirePhysicsModel.baseTemp tel)
        ≤ (TirePhysicsModel.predict st tel).currentTemps t z
    ∧ (TirePhysicsModel.reset b).currentTemps t z = b := by
  by_cases h : st.lastUpdateTime = 0
  · refine ⟨?_, ?_, rfl⟩
    · simpa [TirePhysicsModel.predict, h] using hcur
    · simp only [TirePhysicsModel.predict, h, if_pos]
      exact min_le_left _ _
  · have hP : (TirePhysicsModel.predict st tel).currentTemps t z
        = TirePhysicsModel.predictZoneTemp st tel t z := by
      simp [TirePhysicsModel.predict, h]
    rw [hP]
    exact ⟨(predictZoneTemp_bounds st tel t z hbase hcur).1,
      (predictZoneTemp_bounds st tel t z hbase hcur).2, rfl⟩

/-- Witness for `physics_predict_bounds` at the initial state and one
mild-track tick. -/
theorem physics_predict_bounds_witness :
    TirePhysicsModel.baseTemp (telemetryMild 1) ≤ 300
    ∧ TirePhysicsModel.initialState.currentTemps Tire.LF Zone.L ≤ 300
    ∧ ((TirePhysicsModel.predict TirePhysicsModel.initialState
          (telemetryMild 1)).currentTemps Tire.LF Zone.L ≤ 300
      ∧ min (TirePhysicsModel.initialState.currentTemps Tire.LF Zone.L)
          (TirePhysicsModel.baseTemp (telemetryMild 1))
          ≤ (TirePhysicsModel.predict TirePhysicsModel.initialState
              (telemetryMild 1)).currentTemps Tire.LF Zone.L
      ∧ (TirePhysicsModel.reset 70).currentTemps Tire.LF Zone.L = 70) :=
  ⟨by norm_num [TirePhysicsModel.baseTemp, telemetryMild],
   by norm_num [TirePhysicsModel.initialState],
   physics_predict_bounds _ _ _ _ 70
     (by norm_num [TirePhysicsModel.baseTemp, telemetryMild])
     (by norm_num [TirePhysicsModel.initialState])⟩

/-- C1 (code bug): whenever a session is active and the data collector
returns a saved session-file path, `end_session` evaluates
`Path(session_file)` — but tire_predictor.py never imports `Path`, so a
`NameError` is raised and the call aborts: `learn_from_session` is never
fed the file, the car is never enqueued for training, the storage
threshold check never runs, and the car/track state is not cleared (no
`ok` effect trace is produced at all). -/
theorem endSession_nameError_aborts (st : TirePredictor.State)
    (car path : String)
    (hcar : st.currentCar = some car)
    (hfile : st.dataCollectorFile = some path) :
    TirePredictor.endSession st
      = Except.error (TirePredictor.PyError.nameError "Path") := by
  simp [TirePredictor.endSession, hcar, hfile]

/-- Witness for `endSession_nameError_aborts` on a concrete active
session. -/
theorem endSession_nameError_aborts_witness :
    exampleEndState.currentCar = some "gt3"
    ∧ exampleEndState.dataCollectorFile
        = some "data/sessions/gt3_spa_20240101_120000.json.gz"
    ∧ TirePredictor.endSession exampleEndState
        = Except.error (TirePredictor.PyError.nameError "Path") :=
  ⟨rfl, rfl, endSession_nameError_aborts exampleEndState _ _ rfl rfl⟩

/-- C4 (code bug): the coordinator's public entry points do not catch
exceptions at their boundary — `predict` and `end_session` contain no
`try` at all — and an exception escapes on a concrete input: ending this
active session propagates `NameError` (from the unimported `Path` in
tire_predictor.py line 103) to the caller instead of returning a safe
default. -/
theorem endSession_exception_escapes_boundary :
    TirePredictor.endSession
      { currentCar := some "mx5", currentTrack := some "okayama",
        dataCollectorFile :=
          some "data/sessions/mx5_okayama_20240202_000000.json.gz",
        storageNeedsCleanup := true }
      = Except.error (TirePredictor.PyError.nameError "Path") := rfl

/-- Inserting preserves length, for the newest-first session sort. -/
theorem length_insertByMtimeDesc (x : StorageManager.SessionFile)
    (l : List StorageManager.SessionFile) :
    (StorageManager.insertByMtimeDesc x l).length = l.length + 1 := by
  induction l with
  | nil => rfl
  | cons y ys ih =>
    unfold StorageManager.insertByMtimeDesc
    split
    · simp
    · simp [ih]

/-- The newest-first session sort preserves length. -/
theorem length_sortByMtimeDesc (l : List StorageManager.SessionFile) :
    (StorageManager.sortByMtimeDesc l).length = l.length := by
  induction l with
  | nil => rfl
  | cons x xs ih =>
    simp [StorageManager.sortByMtimeDesc, length_insertByMtimeDesc, ih]

/-- C5: after `check_and_cleanup(force=True)` a car@track combo retains at
least `min(min_sessions_per_combo, available)` raw session files: the 3
most recent are exempt from deletion, and only files beyond them can be
removed (when older than the retention window). -/
theorem cleanup_retains_min_sessions (nc : Bool) (now : ℚ)
    (files : List StorageManager.SessionFile) :
    min StorageManager.minSessionsPerCombo files.length
      ≤ (StorageManager.checkAndCleanup true nc now files).length := by
  have h : StorageManager.checkAndCleanup true nc now files
      = StorageManager.cleanupSessionsCombo now files := by
    simp [StorageManager.checkAndCleanup]
  rw [h]
  unfold StorageManager.cleanupSessionsCombo
  rw [List.length_append, List.length_take, length_sortByMtimeDesc]
  exact Nat.le_add_right _ _

/-- Over-cap selection returns exactly `max_count` samples. -/
theorem length_selectRepresentativeSamples
    (samples : List StorageManager.SynthSample)
    (h : 100 < samples.length) :
    (StorageManager.selectRepresentativeSamples samples 100).length = 100 := by
  unfold StorageManager.selectRepresentativeSamples
  rw [if_neg (by omega)]
  simp

/-- C6: every `_synthesize_session` call leaves the combo's synthetic
sample store with at most 100 entries, and when the extension exceeds the
cap, exactly 100 entries remain, chosen by
`_select_representative_samples` — the evenly spaced subsample (indices
`int(i·len/100)`) of the stint-time-sorted list. -/
theorem synthesize_caps_samples (store ns : List StorageManager.SynthSample) :
    (StorageManager.synthesizeSession store ns).length ≤ 100
    ∧ (100 < (store ++ ns).length →
      StorageManager.synthesizeSession store ns
        = StorageManager.selectRepresentativeSamples (store ++ ns) 100
      ∧ (StorageManager.synthesizeSession store ns).length = 100) := by
  constructor
  · by_cases h : 100 < (store ++ ns).length
    · simp only [StorageManager.synthesizeSession, if_pos h]
      rw [length_selectRepresentativeSamples _ h]
    · simp only [StorageManager.synthesizeSession, if_neg h]
      omega
  · intro h
    refine ⟨?_, ?_⟩
    · simp only [StorageManager.synthesizeSession, if_pos h]
    · simp only [StorageManager.synthesizeSession, if_pos h]
      exact length_selectRepresentativeSamples _ h

/-- Witness for `synthesize_caps_samples`: a 101-sample store is cut back
to exactly 100. -/
theorem synthesize_caps_samples_witness :
    100 < ((List.replicate 101 (default : StorageManager.SynthSample))
      ++ ([] : List StorageManager.SynthSample)).length
    ∧ (StorageManager.synthesizeSession
        (List.replicate 101 (default : StorageManager.SynthSample))
        []).length = 100 :=
  ⟨by simp,
   ((synthesize_caps_samples (List.replicate 101 default) []).2 (by simp)).2⟩

/-- filterMap of a constantly-successful function over a replicate. -/
theorem filterMap_replicate_all {α β : Type} (f : α → Option β) (a : α)
    (b : β) (hfa : f a = some b) (n : ℕ) :
    List.filterMap f (List.replicate n a) = List.replicate n b := by
  induction n with
  | zero => rfl
  | succ k ih => simp [List.replicate_succ, hfa, ih]

/-- C7: once `train_models` passes its ≥50-total-samples gate, a (tire,
zone) with exactly 49 valid (positive) ground-truth targets is skipped
(no `_train_single_model` call), while one with exactly 50 valid targets
gets a training attempt. -/
theorem zone_training_threshold
    (targets : List TireModelTrainer.PitTemps) (t : Tire) (z : Zone)
    (f : Tire → Zone → Bool)
    (hf : TireModelTrainer.trainModels targets = some f) :
    ((TireModelTrainer.extractZoneTargets targets t z).length = 49 →
      f t z = false)
    ∧ ((TireModelTrainer.extractZoneTargets targets t z).length = 50 →
      f t z = true) := by
  unfold TireModelTrainer.trainModels at hf
  split at hf
  · exact absurd hf (by simp)
  · have hf2 : TireModelTrainer.zoneTrainingAttempted targets = f :=
      Option.some.inj hf
    subst hf2
    constructor <;> intro h <;>
      simp [TireModelTrainer.zoneTrainingAttempted, h,
        TireModelTrainer.minSamplesForTraining]

/-- Witness for `zone_training_threshold` on 50 pit entries with 49
valid zone targets (skipped) and on 50 with 50 valid (attempted). -/
theorem zone_training_threshold_witness :
    (TireModelTrainer.extractZoneTargets TireModelTrainer.targets49
      Tire.LF Zone.L).length = 49
    ∧ TireModelTrainer.zoneTrainingAttempted TireModelTrainer.targets49
        Tire.LF Zone.L = false
    ∧ (TireModelTrainer.extractZoneTargets TireModelTrainer.targets50
        Tire.LF Zone.L).length = 50
    ∧ TireModelTrainer.zoneTrainingAttempted TireModelTrainer.targets50
        Tire.LF Zone.L = true := by
  have h49 : (TireModelTrainer.extractZoneTargets TireModelTrainer.targets49
      Tire.LF Zone.L).length = 49 := by
    unfold TireModelTrainer.targets49 TireModelTrainer.extractZoneTargets
    rw [List.filterMap_append,
      filterMap_replicate_all _ _ (200 : ℚ) (by norm_num) 49]
    simp
  have h50 : (TireModelTrainer.extractZoneTargets TireModelTrainer.targets50
      Tire.LF Zone.L).length = 50 := by
    unfold TireModelTrainer.targets50 TireModelTrainer.extractZoneTargets
    rw [filterMap_replicate_all _ _ (200 : ℚ) (by norm_num) 50]
    simp
  have ha : TireModelTrainer.trainModels TireModelTrainer.targets49
      = some (TireModelTrainer.zoneTrainingAttempted
        TireModelTrainer.targets49) := by
    unfold TireModelTrainer.trainModels TireModelTrainer.targets49
    rw [if_neg (by simp [TireModelTrainer.minSamplesForTraining])]
  have hb : TireModelTrainer.trainModels TireModelTrainer.targets50
      = some (TireModelTrainer.zoneTrainingAttempted
        TireModelTrainer.targets50) := by
    unfold TireModelTrainer.trainModels TireModelTrainer.targets50
    rw [if_neg (by simp [TireModelTrainer.minSamplesForTraining])]
  exact ⟨h49,
    (zone_training_threshold TireModelTrainer.targets49 Tire.LF Zone.L
      _ ha).1 h49,
    h50,
    (zone_training_threshold TireModelTrainer.targets50 Tire.LF Zone.L
      _ hb).2 h50⟩

/-- C8: in `_merge_corner_patterns`, a second observation within 0.05 lap
fraction of the first (e.g. 0.10 and 0.12) collapses into the stored
entry, leaving `count = 2` with count-weighted averaged lateral g and
speed, while an observation beyond the tolerance (e.g. 0.50) is appended
as its own entry with `count = 1`. -/
theorem corner_merge_within_tolerance
    (c1 c2 c3 : TirePatternLearner.DetectedCorner)
    (h12 : |c1.lapPct - c2.lapPct| < 5/100)
    (h13 : ¬ |c1.lapPct - c3.lapPct| < 5/100) :
    TirePatternLearner.mergeCornerPatterns [] [c1, c2, c3]
      = [{ lapPct := c1.lapPct,
           avgLateralG := (c1.avgLateralG + c2.avgLateralG) / 2,
           avgSpeed := (c1.avgSpeed + c2.avgSpeed) / 2, count := 2 },
         { lapPct := c3.lapPct, avgLateralG := c3.avgLateralG,
           avgSpeed := c3.avgSpeed, count := 1 }] := by
  simp [TirePatternLearner.mergeCornerPatterns,
    TirePatternLearner.mergeOneCorner, h12, h13]
  constructor <;> ring

/-- Witness for `corner_merge_within_tolerance`: observations at lap
fractions 0.10, 0.12, 0.50. -/
theorem corner_merge_within_tolerance_witness :
    TirePatternLearner.mergeCornerPatterns []
      [⟨1/10, 2, 100, 7⟩, ⟨12/100, 3, 120, 8⟩, ⟨1/2, 4, 90, 9⟩]
      = [⟨1/10, 5/2, 110, 2⟩, ⟨1/2, 4, 90, 1⟩] := by
  have h := corner_merge_within_tolerance ⟨1/10, 2, 100, 7⟩
    ⟨12/100, 3, 120, 8⟩ ⟨1/2, 4, 90, 9⟩
    (by rw [abs_sub_lt_iff]; norm_num)
    (by rw [abs_sub_lt_iff]; norm_num)
  rw [h]
  norm_num

/-- C9 counterexample: a stored corner with average lateral g = 4 within
0.02 of the current lap fraction yields a heating delta of
`4 × 2.0 = 8 °F` — above the claimed ±6 °F cap (the code applies no cap)
— and the delta lands on TWO tire-zones (LF left and RF right), not on a
single outer zone only. -/
theorem track_adjustment_counterexample :
    ((TirePatternLearner.getTrackAdjustment
        (some { cornerPatterns := [⟨3/10, 4, 80, 1⟩], confidence := 1/2 })
        (3/10)).1 Tire.LF Zone.L = 8
      ∧ ¬ (|(8 : ℚ)| ≤ 6))
    ∧ (TirePatternLearner.getTrackAdjustment
        (some { cornerPatterns := [⟨3/10, 4, 80, 1⟩], confidence := 1/2 })
        (3/10)).1 Tire.RF Zone.R = 8
    ∧ ((8 : ℚ) ≠ 0) := by
  refine ⟨⟨?_, by norm_num⟩, ?_, by norm_num⟩ <;>
    simp [TirePatternLearner.getTrackAdjustment, List.find?] <;>
    norm_num

/-- C9 (amended): when the telemetry lap fraction is within 0.02 of the
first stored corner and that corner's average lateral g exceeds 0.5, the
track adjustment adds `avg_lateral_g × 2.0` to both the LF left zone and
the RF right zone and 0 to the other ten tire-zones; the delta magnitude
is within 6 °F only when the corner's average lateral g is at most 3. -/
theorem track_adjustment_shape (c : TirePatternLearner.Corner)
    (conf lapPct : ℚ)
    (hnear : |c.lapPct - lapPct| < 2/100)
    (hg : 1/2 < c.avgLateralG) :
    (TirePatternLearner.getTrackAdjustment
        (some { cornerPatterns := [c], confidence := conf }) lapPct).1
        Tire.LF Zone.L = c.avgLateralG * 2
    ∧ (TirePatternLearner.getTrackAdjustment
        (some { cornerPatterns := [c], confidence := conf }) lapPct).1
        Tire.RF Zone.R = c.avgLateralG * 2
    ∧ (∀ t z, ¬ ((t = Tire.LF ∧ z = Zone.L) ∨ (t = Tire.RF ∧ z = Zone.R)) →
        (TirePatternLearner.getTrackAdjustment
          (some { cornerPatterns := [c], confidence := conf }) lapPct).1
          t z = 0)
    ∧ (c.avgLateralG ≤ 3 → |c.avgLateralG * 2| ≤ 6) := by
  have hfind : List.find? (fun x => decide (|x.lapPct - lapPct| < 2/100))
      [c] = some c := by
    simp [List.find?, hnear]
  have hg2 : (2 : ℚ)⁻¹ < c.avgLateralG := by
    rw [show ((2 : ℚ))⁻¹ = 1/2 by norm_num]
    exact hg
  refine ⟨?_, ?_, ?_, ?_⟩
  · simp [TirePatternLearner.getTrackAdjustment, hfind, hg2]
  · simp [TirePatternLearner.getTrackAdjustment, hfind, hg2]
  · intro t z htz
    simp [TirePatternLearner.getTrackAdjustment, hfind, hg2, htz]
  · intro h3
    rw [abs_of_pos (by linarith)]
    linarith

/-- Witness for `track_adjustment_shape`: a stored corner at lap fraction
0.20 with average lateral g 1, queried at lap fraction 0.21. -/
theorem track_adjustment_shape_witness :
    (TirePatternLearner.getTrackAdjustment
        (some { cornerPatterns := [⟨2/10, 1, 60, 1⟩], confidence := 1 })
        (21/100)).1 Tire.LF Zone.L = 1 * 2
    ∧ (TirePatternLearner.getTrackAdjustment
        (some { cornerPatterns := [⟨2/10, 1, 60, 1⟩], confidence := 1 })
        (21/100)).1 Tire.RF Zone.R = 1 * 2
    ∧ (TirePatternLearner.getTrackAdjustment
        (some { cornerPatterns := [⟨2/10, 1, 60, 1⟩], confidence := 1 })
        (21/100)).1 Tire.RR Zone.C = 0
    ∧ |(1 : ℚ) * 2| ≤ 6 := by
  have h := track_adjustment_shape ⟨2/10, 1, 60, 1⟩ 1 (21/100)
    (by rw [abs_sub_lt_iff]; norm_num) (by norm_num)
  exact ⟨h.1, h.2.1, h.2.2.1 Tire.RR Zone.C (by simp), h.2.2.2 (by norm_num)⟩

/-- A high-g sample never changes the recorded-corner accumulator: it only
enters or extends the open corner. -/
theorem detectStep_high_acc (st : TirePatternLearner.DetectState)
    (s : TirePatternLearner.TSample) (h : 1 < |s.lateralG|) :
    (TirePatternLearner.detectStep st s).acc = st.acc := by
  unfold TirePatternLearner.detectStep
  rw [if_pos h]
  split <;> rfl

/-- A run of high-g samples leaves the recorded-corner accumulator
untouched. -/
theorem foldl_detectStep_high_acc (us : List TirePatternLearner.TSample) :
    ∀ st : TirePatternLearner.DetectState, (∀ s ∈ us, 1 < |s.lateralG|) →
      (us.foldl TirePatternLearner.detectStep st).acc = st.acc := by
  induction us with
  | nil => intro st _; rfl
  | cons s ss ih =>
    intro st h
    rw [List.foldl_cons,
      ih _ (fun x hx => h x (List.mem_cons_of_mem _ hx)),
      detectStep_high_acc st s (h s (List.mem_cons_self _ _))]

/-- C10: `_detect_corner_heating` yields `[]` for any telemetry sequence
shorter than 100 samples — and merging that empty result stores no corner
patterns, leaving the existing list unchanged, which is what
`learn_from_session` does with such a session.  Moreover a corner still
open at the final sample is never recorded: appending any all-high-g
suffix (samples with |lateral g| > 1.0, never followed by a low-g sample)
to a sequence of at least 100 samples leaves the detected corners
unchanged. -/
theorem detect_corner_short_or_open
    (tel us : List TirePatternLearner.TSample)
    (existing : List TirePatternLearner.Corner) :
    (tel.length < 100 →
      TirePatternLearner.detectCornerHeating tel = []
      ∧ TirePatternLearner.mergeCornerPatterns existing
          (TirePatternLearner.detectCornerHeating tel) = existing)
    ∧ (100 ≤ tel.length → (∀ s ∈ us, 1 < |s.lateralG|) →
      TirePatternLearner.detectCornerHeating (tel ++ us)
        = TirePatternLearner.detectCornerHeating tel) := by
  constructor
  · intro h
    have hd : TirePatternLearner.detectCornerHeating tel = [] := by
      unfold TirePatternLearner.detectCornerHeating
      rw [if_pos h]
    exact ⟨hd, by rw [hd]; rfl⟩
  · intro h hus
    unfold TirePatternLearner.detectCornerHeating
    rw [if_neg (by omega : ¬ tel.length < 100),
      if_neg (by rw [List.length_append]; omega : ¬ (tel ++ us).length < 100),
      List.foldl_append]
    exact foldl_detectStep_high_acc us _ hus

/-- Witness for `detect_corner_short_or_open`: a 5-sample session detects
nothing and stores nothing, and a 100-sample session followed by one
trailing high-g sample detects the same corners as without it. -/
theorem detect_corner_short_or_open_witness :
    ((List.replicate 5 (⟨0, 0, 0⟩ : TirePatternLearner.TSample)).length < 100)
    ∧ TirePatternLearner.detectCornerHeating
        (List.replicate 5 (⟨0, 0, 0⟩ : TirePatternLearner.TSample)) = []
    ∧ TirePatternLearner.mergeCornerPatterns [⟨1/10, 2, 100, 1⟩]
        (TirePatternLearner.detectCornerHeating
          (List.replicate 5 (⟨0, 0, 0⟩ : TirePatternLearner.TSample)))
        = [⟨1/10, 2, 100, 1⟩]
    ∧ (100 ≤ (List.replicate 100
        (⟨0, 0, 0⟩ : TirePatternLearner.TSample)).length)
    ∧ TirePatternLearner.detectCornerHeating
        (List.replicate 100 (⟨0, 0, 0⟩ : TirePatternLearner.TSample)
          ++ [⟨3, 50, 1/4⟩])
        = TirePatternLearner.detectCornerHeating
          (List.replicate 100 (⟨0, 0, 0⟩ : TirePatternLearner.TSample)) := by
  have h1 := (detect_corner_short_or_open
    (List.replicate 5 (⟨0, 0, 0⟩ : TirePatternLearner.TSample))
    [] [⟨1/10, 2, 100, 1⟩]).1 (by simp)
  have h2 := (detect_corner_short_or_open
    (List.replicate 100 (⟨0, 0, 0⟩ : TirePatternLearner.TSample))
    [⟨3, 50, 1/4⟩] []).2 (by simp)
    (by intro s hs; rw [List.mem_singleton] at hs; subst hs; norm_num)
  exact ⟨by simp, h1.1, h1.2, by simp, h2⟩
